import Mathlib

/-!
Verification of the preset store and switch operation of Workspace-Buddy
(`src/dev_prototype.py`, class `PresetHandler`).

The Python handler keeps an in-memory dict `presets` mapping preset names to
records with fields `description`, `apps` and `close_previous`, mirrored to a
JSON file; a session pointer `current_preset` starts as `None` and is updated
only by `switch_to_preset`.  We embed the dict as an insertion-ordered
association list with string keys, the backing file as an explicit file state,
and the prints of `switch_to_preset` as an emitted list of notifications.
-/

namespace WorkspaceBuddy

/-- A preset record as stored in the JSON file.  `close_previous` is optional
because a record loaded from disk may lack the key; the code reads it with
`preset.get("close_previous", True)`. -/
structure Preset where
  description : String
  apps : List String
  close_previous : Option Bool
  deriving DecidableEq, Repr

/-- The store: an insertion-ordered association list from preset name to
record, embedding the Python dict `self.presets`. -/
abbrev Store := List (String × Preset)

/-- Lookup by key, embedding `d[k]` / `k in d` on the Python dict. -/
def lookupKey : Store → String → Option Preset
  | [], _ => none
  | (k, v) :: rest, name => if k = name then some v else lookupKey rest name

/-- Key membership test, embedding `name in self.presets`. -/
def containsKey (l : Store) (name : String) : Bool :=
  (lookupKey l name).isSome

/-- Dict assignment `d[name] = v`: overwrite in place when the key exists
(keeping its position; a dict holds each key at most once), append at the end
otherwise. -/
def insertKey : Store → String → Preset → Store
  | [], name, v => [(name, v)]
  | (k, w) :: rest, name, v =>
    if k = name then (name, v) :: rest else (k, w) :: insertKey rest name v

/-- Dict deletion `del d[name]` (keys are unique in a dict, so removing every
pair with the key is the same as removing the one entry). -/
def removeKey : Store → String → Store
  | [], _ => []
  | (k, v) :: rest, name =>
    if k = name then removeKey rest name else (k, v) :: removeKey rest name

/-- State of the backing file `presets.json`: absent, present but failing to
read or parse (the bare `except: pass` in `load_presets`), or holding a valid
store. -/
inductive FileState where
  | absent : FileState
  | invalid : FileState
  | valid : Store → FileState
  deriving DecidableEq, Repr

/-- The four hard-coded default presets of `load_presets`, in source order. -/
def default_presets : Store :=
  [("Work",
    { description := "Productivity and development workspace",
      apps := ["Safari", "Xcode", "Terminal", "Slack", "Notes"],
      close_previous := some true }),
   ("School",
    { description := "Educational and learning workspace",
      apps := ["Safari", "Pages", "Keynote", "Numbers", "Mail"],
      close_previous := some true }),
   ("Gaming",
    { description := "Gaming and entertainment workspace",
      apps := ["Steam", "Discord", "Spotify", "Safari"],
      close_previous := some false }),
   ("Relax",
    { description := "Relaxation and social media workspace",
      apps := ["Safari", "Messages", "Photos", "Music", "TV"],
      close_previous := some false })]

/-- `save_presets`: serialize the full store to the file, overwriting it. -/
def save_presets (presets : Store) : FileState :=
  FileState.valid presets

/-- `load_presets`: return the file contents when the file exists and parses;
otherwise fall back to the defaults and persist them immediately.  Returns the
loaded store together with the resulting file state. -/
def load_presets : FileState → Store × FileState
  | FileState.valid s => (s, FileState.valid s)
  | FileState.absent => (default_presets, save_presets default_presets)
  | FileState.invalid => (default_presets, save_presets default_presets)

/-- The handler state: in-memory store, session pointer, and backing file. -/
structure PresetHandler where
  presets : Store
  current_preset : Option String
  file : FileState
  deriving DecidableEq, Repr

/-- `PresetHandler.__init__`: load the presets (creating the file from the
defaults when needed) and start with no current preset. -/
def initHandler (f : FileState) : PresetHandler :=
  { presets := (load_presets f).1,
    current_preset := none,
    file := (load_presets f).2 }

/-- The user-visible prints of `switch_to_preset`, in emission order.  The
opening notification carries the app list whose join (`", ".join`) is
printed. -/
inductive Notification where
  | closingPrevious : String → Notification
  | switchingTo : String → Notification
  | openingApps : List String → Notification
  | description : String → Notification
  deriving DecidableEq, Repr

/-- Python truthiness of `self.current_preset`: `None` and the empty string
are falsy, every other string is truthy. -/
def truthy : Option String → Bool
  | none => false
  | some s => decide (s ≠ "")

/-- `switch_to_preset`: fail without output or state change when the name is
unknown; otherwise emit the closing notification when `self.current_preset`
is truthy and `preset.get("close_previous", True)` holds, then the switching,
opening and description notifications, set `current_preset`, and succeed. -/
def switch_to_preset (h : PresetHandler) (preset_name : String) :
    Bool × List Notification × PresetHandler :=
  match lookupKey h.presets preset_name with
  | none => (false, [], h)
  | some preset =>
    (true,
     (if truthy h.current_preset && preset.close_previous.getD true then
        [Notification.closingPrevious (h.current_preset.getD "")]
      else []) ++
       [Notification.switchingTo preset_name,
        Notification.openingApps preset.apps,
        Notification.description preset.description],
     { h with current_preset := some preset_name })

/-- `add_preset`: insert or overwrite the named entry, then save. -/
def add_preset (h : PresetHandler) (name description : String)
    (apps : List String) (close_previous : Bool) : PresetHandler :=
  let presets' :=
    insertKey h.presets name
      { description := description, apps := apps,
        close_previous := some close_previous }
  { h with presets := presets', file := save_presets presets' }

/-- `delete_preset`: remove and save when present, reporting success; report
failure otherwise. -/
def delete_preset (h : PresetHandler) (name : String) : Bool × PresetHandler :=
  if containsKey h.presets name then
    let presets' := removeKey h.presets name
    (true, { h with presets := presets', file := save_presets presets' })
  else
    (false, h)

/-- Handler states reachable from the default store (a fresh start with no
backing file) by the public store operations load, add and delete. -/
inductive Reachable : PresetHandler → Prop where
  | start : Reachable (initHandler FileState.absent)
  | loadStep (h : PresetHandler) : Reachable h →
      Reachable { h with presets := (load_presets h.file).1,
                         file := (load_presets h.file).2 }
  | addStep (h : PresetHandler) (name d : String) (apps : List String)
      (cp : Bool) : Reachable h → Reachable (add_preset h name d apps cp)
  | deleteStep (h : PresetHandler) (name : String) : Reachable h →
      Reachable (delete_preset h name).2

/-- The store's keys are pairwise distinct. -/
def KeysNodup (l : Store) : Prop :=
  (l.map Prod.fst).Nodup

/-- A valid backing file holds a store with pairwise distinct keys. -/
def FileKeysOK : FileState → Prop
  | FileState.valid s => KeysNodup s
  | FileState.absent => True
  | FileState.invalid => True

/-- One public store operation, for reasoning about call sequences. -/
inductive StoreOp where
  | loadOp : StoreOp
  | addOp : String → String → List String → Bool → StoreOp
  | deleteOp : String → StoreOp

/-- Apply one store operation to the handler. -/
def applyOp (h : PresetHandler) : StoreOp → PresetHandler
  | StoreOp.loadOp =>
      { h with presets := (load_presets h.file).1,
               file := (load_presets h.file).2 }
  | StoreOp.addOp name d apps cp => add_preset h name d apps cp
  | StoreOp.deleteOp name => (delete_preset h name).2

/-- Run a sequence of store operations. -/
def runOps (h : PresetHandler) (ops : List StoreOp) : PresetHandler :=
  ops.foldl applyOp h

/-! ### Helper lemmas about the association-list store -/

theorem lookupKey_nil (name : String) : lookupKey [] name = none := rfl

theorem lookupKey_cons (k : String) (v : Preset) (rest : Store) (name : String) :
    lookupKey ((k, v) :: rest) name
      = if k = name then some v else lookupKey rest name := rfl

theorem containsKey_nil (name : String) : containsKey [] name = false := rfl

theorem containsKey_cons (k : String) (v : Preset) (rest : Store) (name : String) :
    containsKey ((k, v) :: rest) name
      = if k = name then true else containsKey rest name := by
  by_cases hk : k = name <;>
    simp [containsKey, lookupKey_cons, hk]

theorem lookupKey_eq_none_iff (l : Store) (name : String) :
    lookupKey l name = none ↔ name ∉ l.map Prod.fst := by
  induction l with
  | nil => simp [lookupKey_nil]
  | cons p rest ih =>
    obtain ⟨k, v⟩ := p
    simp only [lookupKey_cons, List.map_cons, List.mem_cons]
    by_cases hk : k = name
    · subst hk
      simp
    · simp [hk, ih, Ne.symm hk]

theorem containsKey_false_iff (l : Store) (name : String) :
    containsKey l name = false ↔ name ∉ l.map Prod.fst := by
  rw [← lookupKey_eq_none_iff]
  unfold containsKey
  cases lookupKey l name <;> simp

theorem lookupKey_insertKey_self (l : Store) (name : String) (v : Preset) :
    lookupKey (insertKey l name v) name = some v := by
  induction l with
  | nil => simp [insertKey, lookupKey_cons]
  | cons p rest ih =>
    obtain ⟨k, w⟩ := p
    by_cases hk : k = name
    · simp [insertKey, hk, lookupKey_cons]
    · simp [insertKey, hk, lookupKey_cons, ih]

theorem lookupKey_insertKey_other (l : Store) (name k : String) (v : Preset)
    (hk : k ≠ name) :
    lookupKey (insertKey l name v) k = lookupKey l k := by
  have hne : ¬name = k := fun h => hk h.symm
  induction l with
  | nil => simp [insertKey, lookupKey_cons, lookupKey_nil, hne]
  | cons p rest ih =>
    obtain ⟨k', w⟩ := p
    by_cases hk' : k' = name
    · subst hk'
      have hne' : ¬k' = k := fun h => hk h.symm
      simp [insertKey, lookupKey_cons, hne']
    · simp [insertKey, hk', lookupKey_cons, ih]

theorem insertKey_keys (l : Store) (name : String) (v : Preset) :
    (insertKey l name v).map Prod.fst
      = if containsKey l name then l.map Prod.fst
        else l.map Prod.fst ++ [name] := by
  induction l with
  | nil => simp [insertKey, containsKey_nil]
  | cons p rest ih =>
    obtain ⟨k, w⟩ := p
    by_cases hk : k = name
    · simp [insertKey, hk, containsKey_cons]
    · by_cases hc : containsKey rest name <;>
        simp [insertKey, hk, containsKey_cons, ih, hc]

theorem lookupKey_removeKey_self (l : Store) (name : String) :
    lookupKey (removeKey l name) name = none := by
  induction l with
  | nil => simp [removeKey, lookupKey_nil]
  | cons p rest ih =>
    obtain ⟨k, v⟩ := p
    by_cases hk : k = name
    · simpa [removeKey, hk] using ih
    · simpa [removeKey, lookupKey_cons, hk] using ih

theorem lookupKey_removeKey_other (l : Store) (name k : String) (hk : k ≠ name) :
    lookupKey (removeKey l name) k = lookupKey l k := by
  induction l with
  | nil => simp [removeKey]
  | cons p rest ih =>
    obtain ⟨k', v⟩ := p
    by_cases hk' : k' = name
    · subst hk'
      have hne' : ¬k' = k := fun h => hk h.symm
      simp [removeKey, lookupKey_cons, hne', ih]
    · simp [removeKey, hk', lookupKey_cons, ih]

theorem removeKey_sublist (l : Store) (name : String) :
    (removeKey l name).Sublist l := by
  induction l with
  | nil => simp [removeKey]
  | cons p rest ih =>
    obtain ⟨k, v⟩ := p
    by_cases hk : k = name
    · rw [removeKey, if_pos hk]
      exact ih.cons _
    · rw [removeKey, if_neg hk]
      exact ih.cons₂ _

/-! ### Claim theorems -/

/-- C2: for every store containing `preset_name`, `switch_to_preset` emits,
in order after the optional closing notification, the "switching to preset",
"opening apps" (apps in stored order) and "description" notifications, sets
`current_preset` to the name, and reports success. -/
theorem C2_switch_order (h : PresetHandler) (name : String) (p : Preset)
    (hp : lookupKey h.presets name = some p) :
    ∃ pre : List Notification,
      (pre = [] ∨ ∃ n, pre = [Notification.closingPrevious n]) ∧
        switch_to_preset h name =
          (true,
           pre ++ [Notification.switchingTo name,
                   Notification.openingApps p.apps,
                   Notification.description p.description],
           { h with current_preset := some name }) := by
  refine ⟨if truthy h.current_preset && p.close_previous.getD true then
      [Notification.closingPrevious (h.current_preset.getD "")] else [],
    ?_, ?_⟩
  · by_cases hc : (truthy h.current_preset && p.close_previous.getD true) = true
    · exact Or.inr ⟨h.current_preset.getD "", by rw [if_pos hc]⟩
    · exact Or.inl (by rw [if_neg hc])
  · simp [switch_to_preset, hp]

/-- Witness for C2 at a concrete store and name. -/
theorem C2_witness :
    ∃ pre : List Notification,
      (pre = [] ∨ ∃ n, pre = [Notification.closingPrevious n]) ∧
        switch_to_preset (initHandler FileState.absent) "Work" =
          (true,
           pre ++ [Notification.switchingTo "Work",
                   Notification.openingApps
                     ["Safari", "Xcode", "Terminal", "Slack", "Notes"],
                   Notification.description
                     "Productivity and development workspace"],
           { initHandler FileState.absent with current_preset := some "Work" }) :=
  C2_switch_order (initHandler FileState.absent) "Work"
    { description := "Productivity and development workspace",
      apps := ["Safari", "Xcode", "Terminal", "Slack", "Notes"],
      close_previous := some true }
    (by decide)

/-- C3: switching to a name absent from the store reports failure, emits no
notification, and leaves the whole handler state (store, session pointer and
file) unchanged. -/
theorem C3_unknown_switch_noop (h : PresetHandler) (name : String)
    (hn : lookupKey h.presets name = none) :
    switch_to_preset h name = (false, [], h) := by
  simp [switch_to_preset, hn]

/-- Witness for C3 at a concrete store and absent name. -/
theorem C3_witness :
    switch_to_preset (initHandler FileState.absent) "Nope"
      = (false, [], initHandler FileState.absent) :=
  C3_unknown_switch_noop (initHandler FileState.absent) "Nope" (by decide)

/-- C4: loading when the backing file is absent or unreadable returns exactly
the four hard-coded default presets and persists them to the file; the
operation is total, so no error reaches the caller. -/
theorem C4_load_defaults (f : FileState) (hf : ∀ s, f ≠ FileState.valid s) :
    load_presets f =
      ([("Work",
         { description := "Productivity and development workspace",
           apps := ["Safari", "Xcode", "Terminal", "Slack", "Notes"],
           close_previous := some true }),
        ("School",
         { description := "Educational and learning workspace",
           apps := ["Safari", "Pages", "Keynote", "Numbers", "Mail"],
           close_previous := some true }),
        ("Gaming",
         { description := "Gaming and entertainment workspace",
           apps := ["Steam", "Discord", "Spotify", "Safari"],
           close_previous := some false }),
        ("Relax",
         { description := "Relaxation and social media workspace",
           apps := ["Safari", "Messages", "Photos", "Music", "TV"],
           close_previous := some false })],
       FileState.valid
         [("Work",
           { description := "Productivity and development workspace",
             apps := ["Safari", "Xcode", "Terminal", "Slack", "Notes"],
             close_previous := some true }),
          ("School",
           { description := "Educational and learning workspace",
             apps := ["Safari", "Pages", "Keynote", "Numbers", "Mail"],
             close_previous := some true }),
          ("Gaming",
           { description := "Gaming and entertainment workspace",
             apps := ["Steam", "Discord", "Spotify", "Safari"],
             close_previous := some false }),
          ("Relax",
           { description := "Relaxation and social media workspace",
             apps := ["Safari", "Messages", "Photos", "Music", "TV"],
             close_previous := some false })]) := by
  cases f with
  | absent => rfl
  | invalid => rfl
  | valid s => exact absurd rfl (hf s)

/-- Witness for C4 at the absent file. -/
theorem C4_witness :
    (load_presets FileState.absent).1.map Prod.fst
      = ["Work", "School", "Gaming", "Relax"] := by
  rw [C4_load_defaults FileState.absent (fun s h => FileState.noConfusion h)]
  rfl

/-- C1 counterexample: with `current_preset = some ""` (reachable by
switching to a preset named `""`, which `add_preset` permits), the session
pointer is set and the target's `close_previous` flag is true, yet a
successful switch emits no closing notification: the code tests Python
truthiness of the name, not whether the pointer is set. -/
theorem C1_counterexample :
    ({ presets :=
         [("B", { description := "d", apps := ["X"],
                  close_previous := some true })],
       current_preset := some "",
       file := FileState.absent } : PresetHandler).current_preset ≠ none ∧
      (switch_to_preset
          { presets :=
              [("B", { description := "d", apps := ["X"],
                       close_previous := some true })],
            current_preset := some "",
            file := FileState.absent } "B").1 = true ∧
      (switch_to_preset
          { presets :=
              [("B", { description := "d", apps := ["X"],
                       close_previous := some true })],
            current_preset := some "",
            file := FileState.absent } "B").2.1 =
        [Notification.switchingTo "B", Notification.openingApps ["X"],
         Notification.description "d"] := by
  decide

/-- C1 amended: when the target preset carries an explicit `close_previous`
flag, a successful switch emits a closing notification carrying name `n` iff
`current_preset` is set to the non-empty name `n` and the target's flag is
true. -/
theorem C1_closing_iff (h : PresetHandler) (B n : String) (p : Preset)
    (b : Bool) (hp : lookupKey h.presets B = some p)
    (hb : p.close_previous = some b) :
    Notification.closingPrevious n ∈ (switch_to_preset h B).2.1 ↔
      h.current_preset = some n ∧ n ≠ "" ∧ b = true := by
  cases hc : h.current_preset with
  | none => simp [switch_to_preset, hp, hb, hc, truthy]
  | some s =>
    by_cases hs : s = ""
    · subst hs
      simp only [switch_to_preset, hp, hb, hc]
      simp only [truthy, decide_not]
      constructor
      · intro hmem
        simp at hmem
      · rintro ⟨hn, hne, -⟩
        exact absurd (Option.some.inj hn).symm hne
    · cases b with
      | false =>
        simp only [switch_to_preset, hp, hb, hc]
        constructor
        · intro hmem
          simp [Option.getD] at hmem
        · rintro ⟨-, -, hft⟩
          exact absurd hft (by simp)
      | true =>
        simp only [switch_to_preset, hp, hb, hc]
        have ht : truthy (some s) = true := by simp [truthy, hs]
        rw [ht]
        simp only [Bool.true_and, Option.getD_some, Option.getD]
        constructor
        · intro hmem
          have hn : n = s := by
            simp at hmem
            exact hmem
          subst hn
          exact ⟨rfl, hs, by trivial⟩
        · rintro ⟨hn, -, -⟩
          have : s = n := Option.some.inj hn
          subst this
          simp

/-- Witness for C1 at a concrete handler with a set, non-empty pointer. -/
theorem C1_witness :
    Notification.closingPrevious "A" ∈
        (switch_to_preset
          { presets :=
              [("B", { description := "d", apps := ["X"],
                       close_previous := some true })],
            current_preset := some "A",
            file := FileState.absent } "B").2.1 ↔
      ({ presets :=
           [("B", { description := "d", apps := ["X"],
                    close_previous := some true })],
         current_preset := some "A",
         file := FileState.absent } : PresetHandler).current_preset
          = some "A" ∧ "A" ≠ "" ∧ true = true :=
  C1_closing_iff
    { presets :=
        [("B", { description := "d", apps := ["X"],
                 close_previous := some true })],
      current_preset := some "A",
      file := FileState.absent } "B" "A"
    { description := "d", apps := ["X"], close_previous := some true }
    true (by decide) rfl

/-- C5: `add_preset` followed by `load_presets` of the persisted file yields
the named entry with exactly the given fields (apps in order, last write
wins), and every other name looks up as before. -/
theorem C5_add_roundtrip (h : PresetHandler) (name d : String)
    (apps : List String) (cp : Bool) :
    lookupKey (load_presets (add_preset h name d apps cp).file).1 name
        = some { description := d, apps := apps, close_previous := some cp } ∧
      ∀ k, k ≠ name →
        lookupKey (load_presets (add_preset h name d apps cp).file).1 k
          = lookupKey h.presets k := by
  constructor
  · simp [add_preset, save_presets, load_presets, lookupKey_insertKey_self]
  · intro k hk
    simp [add_preset, save_presets, load_presets,
      lookupKey_insertKey_other h.presets name k _ hk]

/-- Witness for C5: adding "Y" to the defaults and reloading finds "Y" with
the given fields while "Work" is unchanged. -/
theorem C5_witness :
    lookupKey
        (load_presets
          (add_preset (initHandler FileState.absent) "Y" "d2" ["B", "C"]
            true).file).1 "Y"
        = some { description := "d2", apps := ["B", "C"],
                 close_previous := some true } ∧
      lookupKey
          (load_presets
            (add_preset (initHandler FileState.absent) "Y" "d2" ["B", "C"]
              true).file).1 "Work"
        = lookupKey (initHandler FileState.absent).presets "Work" :=
  ⟨(C5_add_roundtrip (initHandler FileState.absent) "Y" "d2" ["B", "C"]
      true).1,
   (C5_add_roundtrip (initHandler FileState.absent) "Y" "d2" ["B", "C"]
      true).2 "Work" (by decide)⟩

/-- C6: `delete_preset` of a present name reports success, removes the entry
and saves; of an absent name it reports failure and changes nothing; hence a
second delete of the same name fails and leaves the state unchanged. -/
theorem C6_delete_spec (h : PresetHandler) (name : String) :
    (containsKey h.presets name = true →
        delete_preset h name =
          (true,
           { h with presets := removeKey h.presets name,
                    file := FileState.valid (removeKey h.presets name) })) ∧
      (containsKey h.presets name = false →
        delete_preset h name = (false, h)) ∧
      (containsKey h.presets name = true →
        delete_preset (delete_preset h name).2 name
          = (false, (delete_preset h name).2)) := by
  refine ⟨fun hc => ?_, fun hc => ?_, fun hc => ?_⟩
  · simp [delete_preset, hc, save_presets]
  · simp [delete_preset, hc]
  · have h2 : containsKey (removeKey h.presets name) name = false := by
      simp [containsKey, lookupKey_removeKey_self]
    simp [delete_preset, hc, save_presets, h2]

/-- Witness for C6: delete "Y" twice after adding it to the defaults. -/
theorem C6_witness :
    delete_preset
        (add_preset (initHandler FileState.absent) "Y" "d2" ["B", "C"] true)
        "Y"
      = (true,
         { add_preset (initHandler FileState.absent) "Y" "d2" ["B", "C"]
              true with
           presets :=
             removeKey
               (add_preset (initHandler FileState.absent) "Y" "d2" ["B", "C"]
                 true).presets "Y",
           file :=
             FileState.valid
               (removeKey
                 (add_preset (initHandler FileState.absent) "Y" "d2"
                   ["B", "C"] true).presets "Y") }) ∧
      delete_preset
          (delete_preset
            (add_preset (initHandler FileState.absent) "Y" "d2" ["B", "C"]
              true) "Y").2 "Y"
        = (false,
           (delete_preset
             (add_preset (initHandler FileState.absent) "Y" "d2" ["B", "C"]
               true) "Y").2) :=
  ⟨(C6_delete_spec
      (add_preset (initHandler FileState.absent) "Y" "d2" ["B", "C"] true)
      "Y").1 (by decide),
   (C6_delete_spec
      (add_preset (initHandler FileState.absent) "Y" "d2" ["B", "C"] true)
      "Y").2.2 (by decide)⟩

theorem keysNodup_default : KeysNodup default_presets := by
  unfold KeysNodup default_presets
  decide

theorem reachable_inv (h : PresetHandler) (hr : Reachable h) :
    KeysNodup h.presets ∧ FileKeysOK h.file := by
  induction hr with
  | start => exact ⟨keysNodup_default, keysNodup_default⟩
  | loadStep h' hr' ih =>
    obtain ⟨ih1, ih2⟩ := ih
    cases hf : h'.file with
    | absent => exact ⟨keysNodup_default, keysNodup_default⟩
    | invalid => exact ⟨keysNodup_default, keysNodup_default⟩
    | valid s =>
      rw [hf] at ih2
      exact ⟨ih2, ih2⟩
  | addStep h' name d apps cp hr' ih =>
    obtain ⟨ih1, -⟩ := ih
    have hnodup : KeysNodup (insertKey h'.presets name
        { description := d, apps := apps, close_previous := some cp }) := by
      unfold KeysNodup at ih1 ⊢
      rw [insertKey_keys]
      by_cases hc : containsKey h'.presets name
      · rw [if_pos hc]
        exact ih1
      · rw [if_neg hc]
        have hnm : name ∉ h'.presets.map Prod.fst :=
          (containsKey_false_iff _ _).1 (by simpa using hc)
        simp [List.nodup_append, ih1, hnm]
    exact ⟨hnodup, hnodup⟩
  | deleteStep h' name hr' ih =>
    obtain ⟨ih1, ih2⟩ := ih
    by_cases hc : containsKey h'.presets name
    · have hnodup : KeysNodup (removeKey h'.presets name) := by
        unfold KeysNodup at ih1 ⊢
        exact ih1.sublist ((removeKey_sublist h'.presets name).map Prod.fst)
      have hd : (delete_preset h' name).2 =
          { h' with presets := removeKey h'.presets name,
                    file := FileState.valid (removeKey h'.presets name) } := by
        simp [delete_preset, hc, save_presets]
      rw [hd]
      exact ⟨hnodup, hnodup⟩
    · have hd : (delete_preset h' name).2 = h' := by
        simp [delete_preset, hc]
      rw [hd]
      exact ⟨ih1, ih2⟩

/-- C7 counterexample: `add_preset` accepts the empty string as a name, so a
state whose store holds the key `""` is reachable from the defaults by one
public add; the claimed key non-emptiness fails there. -/
theorem C7_counterexample :
    Reachable (add_preset (initHandler FileState.absent) "" "d" ["A"] true) ∧
      "" ∈ (add_preset (initHandler FileState.absent) "" "d" ["A"]
          true).presets.map Prod.fst := by
  refine ⟨Reachable.addStep (initHandler FileState.absent) "" "d" ["A"] true
    Reachable.start, ?_⟩
  decide

/-- C7 amended: in every handler state reachable from the defaults via the
public store operations, the store's keys are pairwise distinct (uniqueness
holds; non-emptiness does not, since add accepts an empty name). -/
theorem C7_keys_unique (h : PresetHandler) (hr : Reachable h) :
    KeysNodup h.presets :=
  (reachable_inv h hr).1

/-- Witness for C7 at the initial reachable state. -/
theorem C7_witness : KeysNodup (initHandler FileState.absent).presets :=
  C7_keys_unique (initHandler FileState.absent) Reachable.start

theorem applyOp_current (h : PresetHandler) (op : StoreOp) :
    (applyOp h op).current_preset = h.current_preset := by
  cases op with
  | loadOp => rfl
  | addOp n d a c => rfl
  | deleteOp n =>
    by_cases hc : containsKey h.presets n <;>
      simp [applyOp, delete_preset, hc]

theorem applyOp_set_current (h : PresetHandler) (c : Option String)
    (op : StoreOp) :
    applyOp { h with current_preset := c } op
      = { applyOp h op with current_preset := c } := by
  cases op with
  | loadOp => rfl
  | addOp n d a cp => rfl
  | deleteOp n =>
    by_cases hc : containsKey h.presets n <;>
      simp [applyOp, delete_preset, hc]

/-- C8: `current_preset` is `none` right after initialization; every sequence
of public store operations (load, add, delete) leaves it unchanged; and the
resulting backing file never depends on it (it is never persisted). -/
theorem C8_current_frame :
    (∀ f : FileState, (initHandler f).current_preset = none) ∧
      (∀ (h : PresetHandler) (ops : List StoreOp),
        (runOps h ops).current_preset = h.current_preset) ∧
      (∀ (h : PresetHandler) (c : Option String) (ops : List StoreOp),
        (runOps { h with current_preset := c } ops).file
          = (runOps h ops).file) := by
  refine ⟨fun f => rfl, ?_, ?_⟩
  · intro h ops
    induction ops generalizing h with
    | nil => rfl
    | cons op ops ih =>
      calc (runOps h (op :: ops)).current_preset
          = (runOps (applyOp h op) ops).current_preset := rfl
        _ = (applyOp h op).current_preset := ih (applyOp h op)
        _ = h.current_preset := applyOp_current h op
  · intro h c ops
    induction ops generalizing h with
    | nil => rfl
    | cons op ops ih =>
      calc (runOps { h with current_preset := c } (op :: ops)).file
          = (runOps (applyOp { h with current_preset := c } op) ops).file :=
            rfl
        _ = (runOps { applyOp h op with current_preset := c } ops).file := by
            rw [applyOp_set_current]
        _ = (runOps (applyOp h op) ops).file := ih (applyOp h op)

/-- C9 counterexample: a target record without a `close_previous` key while
`current_preset = some ""` is "set" yet the switch emits no closing
notification, because the code's condition is a truthiness test on the
name. -/
theorem C9_counterexample :
    ({ presets :=
         [("B", { description := "d", apps := ["X"],
                  close_previous := none })],
       current_preset := some "",
       file := FileState.absent } : PresetHandler).current_preset ≠ none ∧
      (switch_to_preset
          { presets :=
              [("B", { description := "d", apps := ["X"],
                       close_previous := none })],
            current_preset := some "",
            file := FileState.absent } "B").1 = true ∧
      (switch_to_preset
          { presets :=
              [("B", { description := "d", apps := ["X"],
                       close_previous := none })],
            current_preset := some "",
            file := FileState.absent } "B").2.1 =
        [Notification.switchingTo "B", Notification.openingApps ["X"],
         Notification.description "d"] := by
  decide

/-- C9 amended: a target record lacking the `close_previous` key is treated
as if the flag were true — switching to it while `current_preset` holds a
non-empty name emits the closing notification (first, carrying that name). -/
theorem C9_missing_flag (h : PresetHandler) (B s : String) (p : Preset)
    (hp : lookupKey h.presets B = some p) (hb : p.close_previous = none)
    (hc : h.current_preset = some s) (hs : s ≠ "") :
    (switch_to_preset h B).1 = true ∧
      (switch_to_preset h B).2.1 =
        Notification.closingPrevious s ::
          [Notification.switchingTo B, Notification.openingApps p.apps,
           Notification.description p.description] := by
  have ht : truthy (some s) = true := by simp [truthy, hs]
  simp [switch_to_preset, hp, hb, hc, ht]

/-- Witness for C9 at a concrete flagless record. -/
theorem C9_witness :
    (switch_to_preset
        { presets :=
            [("B", { description := "d", apps := ["X"],
                     close_previous := none })],
          current_preset := some "A",
          file := FileState.absent } "B").1 = true ∧
      (switch_to_preset
          { presets :=
              [("B", { description := "d", apps := ["X"],
                       close_previous := none })],
            current_preset := some "A",
            file := FileState.absent } "B").2.1 =
        Notification.closingPrevious "A" ::
          [Notification.switchingTo "B", Notification.openingApps ["X"],
           Notification.description "d"] :=
  C9_missing_flag
    { presets :=
        [("B", { description := "d", apps := ["X"],
                 close_previous := none })],
      current_preset := some "A",
      file := FileState.absent } "B" "A"
    { description := "d", apps := ["X"], close_previous := none }
    (by decide) rfl rfl (by decide)

/-- C10: after a successful switch to a preset named `""`, the session
pointer holds the empty string and is falsy, so a later switch to any preset
whose `close_previous` flag is true emits no closing notification. -/
theorem C10_truthiness (h : PresetHandler) (B n : String) (p pB : Preset)
    (h0 : lookupKey h.presets "" = some p) :
    (switch_to_preset h "").1 = true ∧
      (switch_to_preset h "").2.2.current_preset = some "" ∧
      (lookupKey h.presets B = some pB → pB.close_previous = some true →
        Notification.closingPrevious n ∉
          (switch_to_preset (switch_to_preset h "").2.2 B).2.1) := by
  have h1 : (switch_to_preset h "").2.2
      = { h with current_preset := some "" } := by
    simp [switch_to_preset, h0]
  refine ⟨by simp [switch_to_preset, h0], by rw [h1], ?_⟩
  intro hB hflag
  rw [h1]
  simp [switch_to_preset, hB, truthy]

/-- Witness for C10: a store holding a preset named `""` and a preset "B"
with `close_previous` true; after switching to `""`, switching to "B" emits
no closing notification. -/
theorem C10_witness :
    (switch_to_preset
        { presets :=
            [("", { description := "e", apps := ["E"],
                    close_previous := some true }),
             ("B", { description := "d", apps := ["X"],
                     close_previous := some true })],
          current_preset := none,
          file := FileState.absent } "").1 = true ∧
      (switch_to_preset
          { presets :=
              [("", { description := "e", apps := ["E"],
                      close_previous := some true }),
               ("B", { description := "d", apps := ["X"],
                       close_previous := some true })],
            current_preset := none,
            file := FileState.absent } "").2.2.current_preset = some "" ∧
      Notification.closingPrevious "A" ∉
        (switch_to_preset
          (switch_to_preset
            { presets :=
                [("", { description := "e", apps := ["E"],
                        close_previous := some true }),
                 ("B", { description := "d", apps := ["X"],
                         close_previous := some true })],
              current_preset := none,
              file := FileState.absent } "").2.2 "B").2.1 := by
  refine ⟨(C10_truthiness
      { presets :=
          [("", { description := "e", apps := ["E"],
                  close_previous := some true }),
           ("B", { description := "d", apps := ["X"],
                   close_previous := some true })],
        current_preset := none,
        file := FileState.absent } "B" "A"
      { description := "e", apps := ["E"], close_previous := some true }
      { description := "d", apps := ["X"], close_previous := some true }
      (by decide)).1,
    (C10_truthiness
      { presets :=
          [("", { description := "e", apps := ["E"],
                  close_previous := some true }),
           ("B", { description := "d", apps := ["X"],
                   close_previous := some true })],
        current_preset := none,
        file := FileState.absent } "B" "A"
      { description := "e", apps := ["E"], close_previous := some true }
      { description := "d", apps := ["X"], close_previous := some true }
      (by decide)).2.1,
    (C10_truthiness
      { presets :=
          [("", { description := "e", apps := ["E"],
                  close_previous := some true }),
           ("B", { description := "d", apps := ["X"],
                   close_previous := some true })],
        current_preset := none,
        file := FileState.absent } "B" "A"
      { description := "e", apps := ["E"], close_previous := some true }
      { description := "d", apps := ["X"], close_previous := some true }
      (by decide)).2.2 (by decide) rfl⟩

end WorkspaceBuddy
